import Mathlib

/-!
Verification development for the videofront video API core.

The data model is embedded from `src/pipeline/migrations/0004_auto_20160809_1535.py`
and the response shaping from `src/api/v1/serializers.py`.  The request handlers
(views) are not part of the provided sources; where a handler decides a property,
it is modelled from the specification (each such definition says so in its doc
comment) and checked against the behaviour pinned down by
`src/api/tests/v1/test_videos.py`.
-/

namespace Videofront

/-- Transcoding status: `status ∈ {processing, success, failed}` per the spec's
data model (`VideoTranscoding.STATUS_*` constants used in the tests). -/
inductive TranscodingStatus
  | processing
  | success
  | failed
deriving DecidableEq, Repr

/-- `Video`: public_id (opaque, unique), owner (a principal), title. -/
structure Video where
  public_id : String
  owner : Nat
  title : String
deriving DecidableEq, Repr

/-- `VideoTranscoding`: one-to-one with Video; status, progress, started_at. -/
structure VideoTranscoding where
  video_id : String
  status : TranscodingStatus
  progress : Nat
  started_at : Nat
deriving DecidableEq, Repr

/-- `VideoSubtitles` row as created by migration 0004: public_id
(unique, min length 1, max length 20), language (choices, max_length=3),
and the owning video (FK with cascade delete). -/
structure VideoSubtitles where
  public_id : String
  video_id : String
  language : String
deriving DecidableEq, Repr

/-- `VideoFormat` row: name plus the bitrate used by the tests
(`video.formats.create(name="SD", bitrate=128)`). -/
structure VideoFormat where
  video_id : String
  name : String
  bitrate : Nat
deriving DecidableEq, Repr

/-- `VideoUploadUrl`: an issued upload grant. -/
structure VideoUploadUrl where
  public_video_id : String
  owner : Nat
  filename : String
  expires_at : Nat
  was_used : Bool
deriving DecidableEq, Repr

/-- The Entity Store: the persistent rows the API reads and writes. -/
structure Store where
  videos : List Video
  transcodings : List VideoTranscoding
  subtitles : List VideoSubtitles
  formats : List VideoFormat
  uploadUrls : List VideoUploadUrl
deriving DecidableEq, Repr

/-- The fixed enumerated set of language codes, copied from the `choices`
of the `language` column in migration 0004. -/
def LANGUAGE_CHOICES : List String :=
  ["af", "ar", "ast", "az", "bg", "be", "bn", "br", "bs", "ca", "cs", "cy",
   "da", "de", "el", "en", "en-au", "en-gb", "eo", "es", "es-ar", "es-co",
   "es-mx", "es-ni", "es-ve", "et", "eu", "fa", "fi", "fr", "fy", "ga",
   "gd", "gl", "he", "hi", "hr", "hu", "ia", "id", "io", "is", "it", "ja",
   "ka", "kk", "km", "kn", "ko", "lb", "lt", "lv", "mk", "ml", "mn", "mr",
   "my", "nb", "ne", "nl", "nn", "os", "pa", "pl", "pt", "pt-br", "ro",
   "ru", "sk", "sl", "sq", "sr", "sr-latn", "sv", "sw", "ta", "te", "th",
   "tr", "tt", "udm", "uk", "ur", "vi", "zh-hans", "zh-hant"]

/-- The column constraints declared for a `VideoSubtitles` row by migration
0004: `public_id` has `MinLengthValidator(1)` and `max_length=20`;
`language` has `max_length=3`. -/
def subtitlesRowValid (s : VideoSubtitles) : Bool :=
  1 ≤ s.public_id.length && s.public_id.length ≤ 20 && s.language.length ≤ 3

/-- Metadata the plugin backend reports for a completed upload. -/
structure VideoMeta where
  title : String
deriving DecidableEq, Repr

/-- A format descriptor reported by the plugin backend. -/
structure FormatInfo where
  name : String
  bitrate : Nat
deriving DecidableEq, Repr

/-- The plugin backend capability set, as listed in the spec's external
interface section: `get_uploaded_video` returns metadata or not-found,
`upload_subtitles` may fail, the url capabilities are pure computations. -/
structure Backend where
  get_uploaded_video : String → Option VideoMeta
  create_transcoding_jobs : String → List String
  iter_available_formats : String → List FormatInfo
  get_subtitles_download_url : String → String → String → String
  get_video_streaming_url : String → String → String
  upload_subtitles : String → String → String → List Nat → Except String Unit

/-- Field names output for one format element, from
`VideoFormatSerializer.Meta.fields = ('name', 'streaming_url')`
in `src/api/v1/serializers.py`. -/
def videoFormatSerializerFields : List String :=
  ["name", "streaming_url"]

/-- One format element of a response, keyed exactly by
`videoFormatSerializerFields`; `streaming_url` is computed by the plugin
backend from (video id, format name). -/
def serializeFormat (backend : Backend) (videoId : String) (f : VideoFormat) :
    List (String × String) :=
  [("name", f.name),
   ("streaming_url", backend.get_video_streaming_url videoId f.name)]

/-- status_details item: fields ('status', 'progress', 'started_at') of
`VideoTranscodingSerializer`. -/
structure StatusDetails where
  status : TranscodingStatus
  progress : Nat
  started_at : Nat
deriving DecidableEq, Repr

/-- One subtitle element of a response: id (source public_id), language from
`VideoSubtitlesSerializer`, plus the download_url the tests observe, computed
by the plugin backend from (video id, subtitle id, language). -/
structure SubtitleItem where
  id : String
  language : String
  download_url : String
deriving DecidableEq, Repr

/-- One video element of a list/detail response, following
`VideoSerializer.Meta.fields = ('id', 'title', 'status_details',
'subtitles', 'formats')`. -/
structure VideoItem where
  id : String
  title : String
  status_details : Option StatusDetails
  subtitles : List SubtitleItem
  formats : List (List (String × String))
deriving DecidableEq, Repr

/-- The (at most one) transcoding record of a video. -/
def findTranscoding (st : Store) (videoId : String) : Option VideoTranscoding :=
  st.transcodings.find? (fun t => t.video_id == videoId)

/-- Serialize one video per `VideoSerializer`: status_details is null when no
transcoding record exists, subtitles and formats are the video's child rows. -/
def serializeVideo (backend : Backend) (st : Store) (v : Video) : VideoItem :=
  { id := v.public_id
    title := v.title
    status_details :=
      (findTranscoding st v.public_id).map
        (fun t => ⟨t.status, t.progress, t.started_at⟩)
    subtitles :=
      (st.subtitles.filter (fun s => s.video_id == v.public_id)).map
        (fun s => ⟨s.public_id, s.language,
          backend.get_subtitles_download_url v.public_id s.public_id s.language⟩)
    formats :=
      (st.formats.filter (fun f => f.video_id == v.public_id)).map
        (serializeFormat backend v.public_id) }

/-- Does this video have a transcoding record with status failed? -/
def hasFailedTranscoding (st : Store) (videoId : String) : Bool :=
  st.transcodings.any
    (fun t => t.video_id == videoId && t.status == TranscodingStatus.failed)

/-- Modelled from the spec: the Ownership & Visibility Filter of the missing
views module.  A video is visible in list results only if it is owned by the
caller and has no transcoding record with status failed. -/
def visibleVideos (st : Store) (principal : Nat) : List Video :=
  st.videos.filter
    (fun v => v.owner == principal && !(hasFailedTranscoding st v.public_id))

/-- Modelled from the spec: the list endpoint `GET /videos/` of the missing
views module — serialize every visible video. -/
def listVideos (backend : Backend) (st : Store) (principal : Nat) :
    List VideoItem :=
  (visibleVideos st principal).map (serializeVideo backend st)

/-- Outcome of a detail lookup: 200 with one item, or 404. -/
inductive DetailResponse
  | ok (item : VideoItem)
  | notFound
deriving DecidableEq, Repr

/-- Modelled from the spec: the detail endpoint `GET /videos/{id}/` of the
missing views module, including Upload-URL Reconciliation.  An existing video
is returned iff the caller owns it (else 404, indistinguishable from a missing
id).  On a miss with a non-expired caller-owned grant, the plugin backend is
consulted: not-found answers 404 with no state change, otherwise a Video row
is materialized (with the formats the backend enumerates) and served. -/
def getVideo (backend : Backend) (st : Store) (principal : Nat) (id : String)
    (now : Nat) : DetailResponse × Store :=
  match st.videos.find? (fun v => v.public_id == id) with
  | some v =>
    if v.owner == principal then (DetailResponse.ok (serializeVideo backend st v), st)
    else (DetailResponse.notFound, st)
  | none =>
    match st.uploadUrls.find?
        (fun u => u.public_video_id == id && u.owner == principal
          && decide (now < u.expires_at)) with
    | none => (DetailResponse.notFound, st)
    | some u =>
      match backend.get_uploaded_video id with
      | none => (DetailResponse.notFound, st)
      | some meta =>
        let newVideo : Video := ⟨id, u.owner, meta.title⟩
        let newFormats :=
          (backend.iter_available_formats id).map
            (fun f => VideoFormat.mk id f.name f.bitrate)
        let st' := { st with
          videos := st.videos ++ [newVideo]
          formats := st.formats ++ newFormats }
        (DetailResponse.ok (serializeVideo backend st' newVideo), st')

/-- Payload of `POST /videos/{id}/subtitles/`.  The client may supply an id;
per the spec it is ignored for matching purposes. -/
structure SubtitlePayload where
  id : Option String
  language : String
  name : String
  attachment : Option (List Nat)
deriving DecidableEq, Repr

/-- Outcome of a subtitle upload: 201 with {id, language, download_url},
400 with a field-keyed error, 404, or a propagated backend failure. -/
inductive UploadResponse
  | created (id : String) (language : String) (download_url : String)
  | validationError (field : String) (message : String)
  | notFound
  | backendError (e : String)
deriving DecidableEq, Repr

/-- The 400 message for an oversized attachment; it carries the configured
maximum byte count (the tests check the message contains "139" when
`SUBTITLES_MAX_BYTES=139`). -/
def attachmentTooLargeMessage (maxBytes : Nat) : String :=
  "Attachment too large. Maximum file size is " ++ toString maxBytes ++ " bytes"

/-- Modelled from the spec: the Subtitle Intake Validator and persist step of
the missing views module.  Validation order is fail-fast: language must belong
to the fixed enumerated set, the attachment must be present, and its size must
not exceed the configured maximum.  Any client-supplied id is ignored: a fresh
server-generated public id (`freshId`) names the new row.  The plugin backend
upload capability is called before the row is committed; if it fails, the
error propagates and no row is committed. -/
def uploadSubtitles (backend : Backend) (maxBytes : Nat) (st : Store)
    (principal : Nat) (videoId : String) (payload : SubtitlePayload)
    (freshId : String) : UploadResponse × Store :=
  match st.videos.find? (fun v => v.public_id == videoId) with
  | none => (UploadResponse.notFound, st)
  | some v =>
    if v.owner != principal then (UploadResponse.notFound, st)
    else if !(LANGUAGE_CHOICES.contains payload.language) then
      (UploadResponse.validationError "language"
        ("\x22" ++ payload.language ++ "\x22 is not a valid choice."), st)
    else
      match payload.attachment with
      | none =>
        (UploadResponse.validationError "attachment" "No attachment content", st)
      | some content =>
        if maxBytes < content.length then
          (UploadResponse.validationError "attachment"
            (attachmentTooLargeMessage maxBytes), st)
        else
          match backend.upload_subtitles videoId freshId payload.language content with
          | Except.error e => (UploadResponse.backendError e, st)
          | Except.ok _ =>
            let row : VideoSubtitles := ⟨freshId, videoId, payload.language⟩
            (UploadResponse.created freshId payload.language
              (backend.get_subtitles_download_url videoId freshId payload.language),
             { st with subtitles := st.subtitles ++ [row] })

/-- Modelled from the spec: the number of Entity Store round-trips a list
request issues, pinned by the query-count assertions of the tests — three
base queries (session, user authentication, video joined with its transcoding
record), plus one subtitles prefetch and one formats prefetch that only run
when the page is non-empty.  Child rows are batch-prefetched for the whole
page, never per video. -/
def listNumQueries (st : Store) (principal : Nat) : Nat :=
  3 + (if (visibleVideos st principal).isEmpty then 0 else 2)

/-- The format-element keys of every item of a response, for stating concrete
facts about response shapes. -/
def responseFormatKeys (items : List VideoItem) : List (List (List String)) :=
  items.map (fun item => item.formats.map (fun f => f.map Prod.fst))

/-- A concrete plugin backend mirroring the mocks of the tests. -/
def egBackend : Backend :=
  { get_uploaded_video := fun _ => some ⟨"Some file.mp4"⟩
    create_transcoding_jobs := fun _ => []
    iter_available_formats := fun _ => []
    get_subtitles_download_url := fun _ sid _ => "http://example.com/" ++ sid ++ ".vtt"
    get_video_streaming_url := fun vid fname =>
      "http://example.com/" ++ vid ++ "/" ++ fname ++ ".mp4"
    upload_subtitles := fun _ _ _ _ => Except.ok () }

/-- `egBackend` with `get_uploaded_video` reporting not-found. -/
def notUploadedBackend : Backend :=
  { egBackend with get_uploaded_video := fun _ => none }

/-- `egBackend` with a failing `upload_subtitles` capability
(the `Mock(side_effect=ValueError)` of the tests). -/
def failingUploadBackend : Backend :=
  { egBackend with upload_subtitles := fun _ _ _ _ => Except.error "ValueError" }

/-- A store holding one video owned by principal 2. -/
def storeOfP2 : Store :=
  { videos := [⟨"vid2", 2, "Some title"⟩]
    transcodings := [], subtitles := [], formats := [], uploadUrls := [] }

/-- A store holding only an unexpired upload grant of principal 1 for
"videoid" (the `VideoUploadUrlFactory` fixture of the tests). -/
def grantStore : Store :=
  { videos := [], transcodings := [], subtitles := [], formats := []
    uploadUrls := [⟨"videoid", 1, "Some file.mp4", 3600, false⟩] }

/-- A store holding one video of principal 1 with one "SD" format of
bitrate 128 (the `test_get_video_with_formats` fixture). -/
def formatStore : Store :=
  { videos := [⟨"videoid", 1, "Some title"⟩]
    transcodings := [], subtitles := []
    formats := [⟨"videoid", "SD", 128⟩]
    uploadUrls := [] }

/-- A store holding one video of principal 1 whose transcoding failed. -/
def failedStore : Store :=
  { videos := [⟨"videoid", 1, "videotitle"⟩]
    transcodings := [⟨"videoid", TranscodingStatus.failed, 0, 0⟩]
    subtitles := [], formats := [], uploadUrls := [] }

/-- A store holding one video of principal 1 with one existing subtitle row
"subsid"/fr (the `test_cannot_modify_subtitles` fixture). -/
def subsStore : Store :=
  { videos := [⟨"videoid", 1, "Some title"⟩]
    transcodings := [], formats := [], uploadUrls := []
    subtitles := [⟨"subsid", "videoid", "fr"⟩] }

/-- Members of a list with a nodup image are determined by their image. -/
theorem eq_of_nodup_map_ids {st : Store} (hids : (st.videos.map Video.public_id).Nodup)
    {v w : Video} (hv : v ∈ st.videos) (hw : w ∈ st.videos)
    (h : w.public_id = v.public_id) : w = v :=
  List.inj_on_of_nodup_map hids hw hv h

/-- C10: every `VideoSubtitles` row satisfying the declared column constraints
has a language of at most 3 characters, although the enumerated choice set
contains codes of up to 7 characters (for example "zh-hans"), which therefore
can never be stored under the declared schema. -/
theorem language_column_caps_choices :
    (∀ s : VideoSubtitles, subtitlesRowValid s = true → s.language.length ≤ 3) ∧
    "zh-hans" ∈ LANGUAGE_CHOICES ∧
    (∀ s : VideoSubtitles, s.language = "zh-hans" → subtitlesRowValid s = false) ∧
    (∃ c ∈ LANGUAGE_CHOICES, 3 < c.length) := by
  refine ⟨?_, by decide, ?_, ⟨"zh-hans", by decide, by decide⟩⟩
  · intro s h
    simp only [subtitlesRowValid, Bool.and_eq_true, decide_eq_true_eq] at h
    exact h.2
  · intro s h
    have hlen : decide ("zh-hans".length ≤ 3) = false := by rfl
    simp only [subtitlesRowValid, h, hlen, Bool.and_false]

/-- Witness for C10 at a concrete row carrying the advertised 7-character
code "zh-hans": the declared column constraints reject it. -/
theorem language_column_caps_choices_witness :
    subtitlesRowValid ⟨"subid1", "videoid", "zh-hans"⟩ = false :=
  language_column_caps_choices.2.2.1 ⟨"subid1", "videoid", "zh-hans"⟩ rfl

/-- C1: a video owned by p₂ never appears in the list results of a different
principal p₁; a detail lookup by p₁ for its id answers NotFound, and a detail
lookup for a wholly nonexistent id (no row, no matching grant) answers the
very same NotFound response, so p₁ cannot tell an unowned video from a
nonexistent one. -/
theorem ownership_isolation (backend : Backend) (st : Store) (p₁ p₂ : Nat)
    (v : Video) (now : Nat)
    (hids : (st.videos.map Video.public_id).Nodup)
    (hv : v ∈ st.videos) (hown : v.owner = p₂) (hne : p₁ ≠ p₂) :
    (∀ item ∈ listVideos backend st p₁, item.id ≠ v.public_id) ∧
    (getVideo backend st p₁ v.public_id now).1 = DetailResponse.notFound ∧
    (∀ id, (∀ w ∈ st.videos, w.public_id ≠ id) →
      (∀ u ∈ st.uploadUrls,
        ¬(u.public_video_id = id ∧ u.owner = p₁ ∧ now < u.expires_at)) →
      (getVideo backend st p₁ id now).1 = DetailResponse.notFound) := by
  refine ⟨?_, ?_, ?_⟩
  · intro item hitem heq
    simp only [listVideos, visibleVideos, List.mem_map, List.mem_filter] at hitem
    obtain ⟨w, ⟨hwmem, hwcond⟩, rfl⟩ := hitem
    have hid : w.public_id = v.public_id := heq
    have hw : w = v := eq_of_nodup_map_ids hids hv hwmem hid
    subst hw
    simp only [Bool.and_eq_true, beq_iff_eq] at hwcond
    exact hne (by rw [← hwcond.1, hown])
  · cases hfind : st.videos.find? (fun w => w.public_id == v.public_id) with
    | none =>
        rw [List.find?_eq_none] at hfind
        exact absurd (by simp) (hfind v hv)
    | some w =>
        have hmem := List.mem_of_find?_eq_some hfind
        have hpw := List.find?_some hfind
        simp only [beq_iff_eq] at hpw
        have hw : w = v := eq_of_nodup_map_ids hids hv hmem hpw
        subst hw
        have hff : (w.owner == p₁) = false := by
          rw [hown, beq_eq_false_iff_ne]
          exact fun h => hne h.symm
        simp [getVideo, hfind, hff]
  · intro id hno hgr
    have h₁ : st.videos.find? (fun w => w.public_id == id) = none := by
      rw [List.find?_eq_none]
      intro w hw
      simp only [beq_iff_eq]
      exact hno w hw
    have h₂ : st.uploadUrls.find?
        (fun u => u.public_video_id == id && u.owner == p₁
          && decide (now < u.expires_at)) = none := by
      rw [List.find?_eq_none]
      intro u hu
      simp only [Bool.and_eq_true, beq_iff_eq, decide_eq_true_eq]
      rintro ⟨⟨ha, hb⟩, hc⟩
      exact hgr u hu ⟨ha, hb, hc⟩
    simp [getVideo, h₁, h₂]

/-- Witness for C1: principal 1 looking up principal 2's video "vid2" gets
NotFound. -/
theorem ownership_isolation_witness :
    (getVideo egBackend storeOfP2 1 "vid2" 0).1 = DetailResponse.notFound :=
  (ownership_isolation egBackend storeOfP2 1 2 ⟨"vid2", 2, "Some title"⟩ 0
    (by decide) (by decide) rfl (by decide)).2.1

/-- C2: for a detail lookup for an id with no Video row but an unexpired
grant of the caller — when the plugin backend reports the upload complete, the
lookup answers 200 and a Video row for that id, owned by the caller, is
materialized; when the backend reports not-found, the lookup answers 404 and
the store is unchanged. -/
theorem upload_reconciliation (backend : Backend) (st : Store) (p : Nat)
    (id : String) (now : Nat)
    (hnovideo : ∀ v ∈ st.videos, v.public_id ≠ id)
    (hgrant : ∃ u ∈ st.uploadUrls,
      u.public_video_id = id ∧ u.owner = p ∧ now < u.expires_at) :
    ((backend.get_uploaded_video id).isSome →
      (∃ item, (getVideo backend st p id now).1 = DetailResponse.ok item) ∧
      ∃ v ∈ (getVideo backend st p id now).2.videos,
        v.public_id = id ∧ v.owner = p) ∧
    (backend.get_uploaded_video id = none →
      (getVideo backend st p id now).1 = DetailResponse.notFound ∧
      (getVideo backend st p id now).2 = st) := by
  have h₁ : st.videos.find? (fun w => w.public_id == id) = none := by
    rw [List.find?_eq_none]
    intro w hw
    simp only [beq_iff_eq]
    exact hnovideo w hw
  obtain ⟨u, hu, hup, huo, hue⟩ := hgrant
  cases hfg : st.uploadUrls.find?
      (fun u => u.public_video_id == id && u.owner == p
        && decide (now < u.expires_at)) with
  | none =>
      rw [List.find?_eq_none] at hfg
      exact absurd (by simp [hup, huo, hue]) (hfg u hu)
  | some u' =>
      have hpu := List.find?_some hfg
      simp only [Bool.and_eq_true, beq_iff_eq, decide_eq_true_eq] at hpu
      constructor
      · intro hsome
        obtain ⟨meta, hmeta⟩ := Option.isSome_iff_exists.mp hsome
        simp only [getVideo, h₁, hfg, hmeta]
        refine ⟨⟨_, rfl⟩, ⟨⟨id, u'.owner, meta.title⟩, ?_, rfl, hpu.1.2⟩⟩
        simp
      · intro hnone
        simp [getVideo, h₁, hfg, hnone]

/-- Witness for C2: with the grant fixture, a backend reporting the upload
complete yields 200, and a backend reporting not-found yields 404 with the
store unchanged. -/
theorem upload_reconciliation_witness :
    (∃ item, (getVideo egBackend grantStore 1 "videoid" 0).1
      = DetailResponse.ok item) ∧
    ((getVideo notUploadedBackend grantStore 1 "videoid" 0).1
        = DetailResponse.notFound ∧
      (getVideo notUploadedBackend grantStore 1 "videoid" 0).2 = grantStore) :=
  ⟨((upload_reconciliation egBackend grantStore 1 "videoid" 0 (by decide)
      ⟨⟨"videoid", 1, "Some file.mp4", 3600, false⟩, by decide, rfl, rfl,
        by decide⟩).1 rfl).1,
   (upload_reconciliation notUploadedBackend grantStore 1 "videoid" 0 (by decide)
      ⟨⟨"videoid", 1, "Some file.mp4", 3600, false⟩, by decide, rfl, rfl,
        by decide⟩).2 rfl⟩

/-- C3: a subtitle upload that passes validation, whose plugin backend upload
capability fails, commits no VideoSubtitles row (the store is returned intact)
and propagates the backend error to the caller. -/
theorem subtitles_upload_atomic (backend : Backend) (maxBytes : Nat) (st : Store)
    (p : Nat) (videoId : String) (payload : SubtitlePayload) (freshId : String)
    (v : Video) (content : List Nat) (e : String)
    (hfind : st.videos.find? (fun w => w.public_id == videoId) = some v)
    (hown : v.owner = p)
    (hlang : payload.language ∈ LANGUAGE_CHOICES)
    (hatt : payload.attachment = some content)
    (hsize : content.length ≤ maxBytes)
    (herr : backend.upload_subtitles videoId freshId payload.language content
      = Except.error e) :
    uploadSubtitles backend maxBytes st p videoId payload freshId
      = (UploadResponse.backendError e, st) := by
  have hnlt : ¬(maxBytes < content.length) := Nat.not_lt.mpr hsize
  have hc : LANGUAGE_CHOICES.contains payload.language = true :=
    List.elem_eq_true_of_mem hlang
  subst hown
  simp [uploadSubtitles, hfind, hc, hatt, hnlt, herr, hlang]

/-- Witness for C3: the failing-upload fixture leaves the subtitle table
empty and surfaces the backend error. -/
theorem subtitles_upload_atomic_witness :
    uploadSubtitles failingUploadBackend 1000 subsStore 1 "videoid"
        ⟨none, "fr", "subs.srt", some [1, 2, 3]⟩ "freshid"
      = (UploadResponse.backendError "ValueError", subsStore) :=
  subtitles_upload_atomic failingUploadBackend 1000 subsStore 1 "videoid"
    ⟨none, "fr", "subs.srt", some [1, 2, 3]⟩ "freshid"
    ⟨"videoid", 1, "Some title"⟩ [1, 2, 3] "ValueError"
    (by decide) rfl (by decide) rfl (by decide) rfl

/-- C4: a caller-owned video whose transcoding record has status failed is
absent from the caller's list results, yet its detail lookup answers 200 with
status_details populated from the failed transcoding record. -/
theorem failed_video_visibility (backend : Backend) (st : Store) (p : Nat)
    (v : Video) (t : VideoTranscoding) (now : Nat)
    (hids : (st.videos.map Video.public_id).Nodup)
    (hv : v ∈ st.videos) (hown : v.owner = p)
    (ht : findTranscoding st v.public_id = some t)
    (hfailed : t.status = TranscodingStatus.failed) :
    (∀ item ∈ listVideos backend st p, item.id ≠ v.public_id) ∧
    (getVideo backend st p v.public_id now).1
      = DetailResponse.ok (serializeVideo backend st v) ∧
    (serializeVideo backend st v).status_details
      = some ⟨TranscodingStatus.failed, t.progress, t.started_at⟩ := by
  have hfb : hasFailedTranscoding st v.public_id = true := by
    simp only [findTranscoding] at ht
    have hmem := List.mem_of_find?_eq_some ht
    have hbeq := List.find?_some ht
    simp only [hasFailedTranscoding, List.any_eq_true]
    exact ⟨t, hmem, by simp [hbeq, hfailed]⟩
  refine ⟨?_, ?_, ?_⟩
  · intro item hitem heq
    simp only [listVideos, visibleVideos, List.mem_map, List.mem_filter] at hitem
    obtain ⟨w, ⟨hwmem, hwcond⟩, rfl⟩ := hitem
    have hid : w.public_id = v.public_id := heq
    have hw : w = v := eq_of_nodup_map_ids hids hv hwmem hid
    subst hw
    rw [hfb] at hwcond
    simp at hwcond
  · cases hfind : st.videos.find? (fun w => w.public_id == v.public_id) with
    | none =>
        rw [List.find?_eq_none] at hfind
        exact absurd (by simp) (hfind v hv)
    | some w =>
        have hmem := List.mem_of_find?_eq_some hfind
        have hpw := List.find?_some hfind
        simp only [beq_iff_eq] at hpw
        have hw : w = v := eq_of_nodup_map_ids hids hv hmem hpw
        subst hw
        simp [getVideo, hfind, hown]
  · simp [serializeVideo, ht, hfailed]

/-- Witness for C4: with the failed-transcoding fixture, the list is empty of
"videoid" while the detail lookup returns the serialized video. -/
theorem failed_video_visibility_witness :
    (getVideo egBackend failedStore 1 "videoid" 0).1
      = DetailResponse.ok (serializeVideo egBackend failedStore
          ⟨"videoid", 1, "videotitle"⟩) :=
  (failed_video_visibility egBackend failedStore 1 ⟨"videoid", 1, "videotitle"⟩
    ⟨"videoid", TranscodingStatus.failed, 0, 0⟩ 0
    (by decide) (by decide) rfl (by decide) rfl).2.1

/-- C5: a subtitle upload's language is rejected with a 400 keyed under
"language" (and no row created) exactly when it lies outside the fixed
enumerated set; every code of the set has 2 to 7 characters, and "french" is
not in the set. -/
theorem subtitles_language_enumerated (backend : Backend) (maxBytes : Nat)
    (st : Store) (p : Nat) (videoId : String) (payload : SubtitlePayload)
    (freshId : String) (v : Video)
    (hfind : st.videos.find? (fun w => w.public_id == videoId) = some v)
    (hown : v.owner = p) :
    (payload.language ∉ LANGUAGE_CHOICES →
      ∃ msg, uploadSubtitles backend maxBytes st p videoId payload freshId
        = (UploadResponse.validationError "language" msg, st)) ∧
    (payload.language ∈ LANGUAGE_CHOICES →
      ∀ msg, (uploadSubtitles backend maxBytes st p videoId payload freshId).1
        ≠ UploadResponse.validationError "language" msg) ∧
    (∀ c ∈ LANGUAGE_CHOICES, 2 ≤ c.length ∧ c.length ≤ 7) ∧
    "french" ∉ LANGUAGE_CHOICES := by
  subst hown
  refine ⟨?_, ?_, by decide, by decide⟩
  · intro hlang
    have hc : LANGUAGE_CHOICES.contains payload.language = false := by
      rw [Bool.eq_false_iff]
      intro h
      exact hlang (List.mem_of_elem_eq_true h)
    refine ⟨"\x22" ++ payload.language ++ "\x22 is not a valid choice.", ?_⟩
    simp only [uploadSubtitles, hfind, hc, Bool.not_false, if_true]
    simp
  · intro hlang msg
    have hc : LANGUAGE_CHOICES.contains payload.language = true :=
      List.elem_eq_true_of_mem hlang
    cases hatt : payload.attachment with
    | none => simp [uploadSubtitles, hfind, hc, hatt, hlang]
    | some content =>
      by_cases hsz : maxBytes < content.length
      · simp [uploadSubtitles, hfind, hc, hatt, hlang, hsz]
      · cases hb : backend.upload_subtitles videoId freshId payload.language content with
        | error e => simp [uploadSubtitles, hfind, hc, hatt, hlang, hsz, hb]
        | ok u => simp [uploadSubtitles, hfind, hc, hatt, hlang, hsz, hb]

/-- Witness for C5: uploading with language "french" is rejected with an
error keyed under "language" and the store is unchanged. -/
theorem subtitles_language_enumerated_witness :
    ∃ msg, uploadSubtitles egBackend 1000 subsStore 1 "videoid"
        ⟨none, "french", "subs.srt", none⟩ "freshid"
      = (UploadResponse.validationError "language" msg, subsStore) :=
  (subtitles_language_enumerated egBackend 1000 subsStore 1 "videoid"
    ⟨none, "french", "subs.srt", none⟩ "freshid" ⟨"videoid", 1, "Some title"⟩
    (by decide) rfl).1 (by decide)

/-- Every serialized video's format elements carry exactly the serializer's
declared fields, with streaming_url computed from (video id, format name). -/
theorem serializeVideo_formats_shape (backend : Backend) (st : Store) (v : Video) :
    ∀ felem ∈ (serializeVideo backend st v).formats,
      felem.map Prod.fst = videoFormatSerializerFields ∧
      ∃ fname, felem = [("name", fname),
        ("streaming_url",
          backend.get_video_streaming_url (serializeVideo backend st v).id fname)] := by
  intro felem hf
  simp only [serializeVideo, List.mem_map] at hf
  obtain ⟨f, hf1, rfl⟩ := hf
  exact ⟨rfl, f.name, rfl⟩

/-- C6 counterexample: with one stored format row (name "SD", bitrate 128),
the response's format element is keyed by exactly name and streaming_url —
it carries no "bitrate" field, contrary to the claim. -/
theorem formats_bitrate_counterexample :
    responseFormatKeys (listVideos egBackend formatStore 1)
      = [[["name", "streaming_url"]]] ∧
    "bitrate" ∉ (["name", "streaming_url"] : List String) := by
  exact ⟨rfl, by decide⟩

/-- C6 (amended): in every list or detail response, each element of formats
carries exactly the fields name and streaming_url (bitrate is not serialized),
with streaming_url computed by the plugin backend from
(video id, format name). -/
theorem formats_response_shape (backend : Backend) (st : Store) (p : Nat) :
    (∀ item ∈ listVideos backend st p, ∀ felem ∈ item.formats,
      felem.map Prod.fst = videoFormatSerializerFields ∧
      ∃ fname, felem = [("name", fname),
        ("streaming_url", backend.get_video_streaming_url item.id fname)]) ∧
    (∀ id now item st₂,
      getVideo backend st p id now = (DetailResponse.ok item, st₂) →
      ∀ felem ∈ item.formats,
        felem.map Prod.fst = videoFormatSerializerFields ∧
        ∃ fname, felem = [("name", fname),
          ("streaming_url", backend.get_video_streaming_url item.id fname)]) := by
  constructor
  · intro item hitem
    simp only [listVideos, List.mem_map] at hitem
    obtain ⟨v, hv, rfl⟩ := hitem
    exact serializeVideo_formats_shape backend st v
  · intro id now item st₂ h
    simp only [getVideo] at h
    split at h
    · split at h
      · rw [Prod.mk.injEq] at h
        obtain ⟨h₁, h₂⟩ := h
        injection h₁ with h₁
        subst h₁
        exact serializeVideo_formats_shape backend st _
      · simp at h
    · split at h
      · simp at h
      · split at h
        · simp at h
        · rw [Prod.mk.injEq] at h
          obtain ⟨h₁, h₂⟩ := h
          injection h₁ with h₁
          subst h₁
          exact serializeVideo_formats_shape backend _ _

/-- Witness for the amended C6 at the one-format fixture. -/
theorem formats_response_shape_witness :
    ([("name", "SD"), ("streaming_url", "http://example.com/videoid/SD.mp4")] :
        List (String × String)).map Prod.fst = videoFormatSerializerFields ∧
    ∃ fname, ([("name", "SD"),
        ("streaming_url", "http://example.com/videoid/SD.mp4")] :
          List (String × String))
      = [("name", fname),
         ("streaming_url", egBackend.get_video_streaming_url "videoid" fname)] :=
  (formats_response_shape egBackend formatStore 1).1
    (serializeVideo egBackend formatStore ⟨"videoid", 1, "Some title"⟩) (by decide)
    [("name", "SD"), ("streaming_url", "http://example.com/videoid/SD.mp4")]
    (by decide)

/-- C7: a subtitle upload whose payload carries an id equal to an existing
row's public id appends one new row under the fresh server-generated id — the
existing row stays present and untouched, the response reports the fresh id,
and the result does not depend on the client-supplied id at all. -/
theorem subtitles_resubmission_creates (backend : Backend) (maxBytes : Nat)
    (st : Store) (p : Nat) (videoId : String) (payload : SubtitlePayload)
    (freshId : String) (v : Video) (content : List Nat) (old : VideoSubtitles)
    (hfind : st.videos.find? (fun w => w.public_id == videoId) = some v)
    (hown : v.owner = p)
    (hlang : payload.language ∈ LANGUAGE_CHOICES)
    (hatt : payload.attachment = some content)
    (hsize : content.length ≤ maxBytes)
    (hok : backend.upload_subtitles videoId freshId payload.language content
      = Except.ok ())
    (hold : old ∈ st.subtitles) (hid : payload.id = some old.public_id)
    (hfresh : ∀ s ∈ st.subtitles, s.public_id ≠ freshId) :
    (uploadSubtitles backend maxBytes st p videoId payload freshId).2.subtitles
      = st.subtitles ++ [⟨freshId, videoId, payload.language⟩] ∧
    old ∈ (uploadSubtitles backend maxBytes st p videoId payload freshId).2.subtitles ∧
    freshId ≠ old.public_id ∧
    (uploadSubtitles backend maxBytes st p videoId payload freshId).1
      = UploadResponse.created freshId payload.language
          (backend.get_subtitles_download_url videoId freshId payload.language) ∧
    (∀ cid, uploadSubtitles backend maxBytes st p videoId
        { payload with id := cid } freshId
      = uploadSubtitles backend maxBytes st p videoId payload freshId) := by
  obtain ⟨pid, plang, pname, patt⟩ := payload
  have hnlt : ¬(maxBytes < content.length) := Nat.not_lt.mpr hsize
  have hc : LANGUAGE_CHOICES.contains plang = true :=
    List.elem_eq_true_of_mem hlang
  subst hown
  have hred : uploadSubtitles backend maxBytes st v.owner videoId
      ⟨pid, plang, pname, patt⟩ freshId
      = (UploadResponse.created freshId plang
          (backend.get_subtitles_download_url videoId freshId plang),
         { st with subtitles := st.subtitles ++ [⟨freshId, videoId, plang⟩] }) := by
    simp only [SubtitlePayload.attachment] at hatt
    simp only [SubtitlePayload.language] at hc hok hlang
    simp [uploadSubtitles, hfind, hc, hatt, hnlt, hok, hlang]
  exact ⟨by rw [hred], by rw [hred]; exact List.mem_append_left _ hold,
    fun h => hfresh old hold h.symm, by rw [hred], fun cid => rfl⟩

/-- Witness for C7: re-posting with id "subsid" (which names an existing
fr row) appends a fresh "freshid"/en row and leaves the fr row in place. -/
theorem subtitles_resubmission_creates_witness :
    (uploadSubtitles egBackend 1000 subsStore 1 "videoid"
        ⟨some "subsid", "en", "subs.srt", some [1, 2, 3]⟩ "freshid").2.subtitles
      = subsStore.subtitles ++ [⟨"freshid", "videoid", "en"⟩] ∧
    (⟨"subsid", "videoid", "fr"⟩ : VideoSubtitles)
      ∈ (uploadSubtitles egBackend 1000 subsStore 1 "videoid"
          ⟨some "subsid", "en", "subs.srt", some [1, 2, 3]⟩ "freshid").2.subtitles :=
  ⟨(subtitles_resubmission_creates egBackend 1000 subsStore 1 "videoid"
      ⟨some "subsid", "en", "subs.srt", some [1, 2, 3]⟩ "freshid"
      ⟨"videoid", 1, "Some title"⟩ [1, 2, 3] ⟨"subsid", "videoid", "fr"⟩
      (by decide) rfl (by decide) rfl (by decide) rfl (by decide) rfl
      (by decide)).1,
   (subtitles_resubmission_creates egBackend 1000 subsStore 1 "videoid"
      ⟨some "subsid", "en", "subs.srt", some [1, 2, 3]⟩ "freshid"
      ⟨"videoid", 1, "Some title"⟩ [1, 2, 3] ⟨"subsid", "videoid", "fr"⟩
      (by decide) rfl (by decide) rfl (by decide) rfl (by decide) rfl
      (by decide)).2.1⟩

/-- C8: with an otherwise valid payload, an attachment of exactly the
configured maximum byte count is accepted (201), while one of maximum plus
one byte is rejected with a 400 keyed under "attachment" whose message
contains the configured maximum, leaving the store unchanged. -/
theorem subtitles_attachment_size_limit (backend : Backend) (maxBytes : Nat)
    (st : Store) (p : Nat) (videoId : String) (freshId : String) (v : Video)
    (payload₁ payload₂ : SubtitlePayload) (content₁ content₂ : List Nat)
    (hfind : st.videos.find? (fun w => w.public_id == videoId) = some v)
    (hown : v.owner = p)
    (hlang₁ : payload₁.language ∈ LANGUAGE_CHOICES)
    (hatt₁ : payload₁.attachment = some content₁)
    (hsz₁ : content₁.length = maxBytes)
    (hok : backend.upload_subtitles videoId freshId payload₁.language content₁
      = Except.ok ())
    (hlang₂ : payload₂.language ∈ LANGUAGE_CHOICES)
    (hatt₂ : payload₂.attachment = some content₂)
    (hsz₂ : content₂.length = maxBytes + 1) :
    (uploadSubtitles backend maxBytes st p videoId payload₁ freshId).1
      = UploadResponse.created freshId payload₁.language
          (backend.get_subtitles_download_url videoId freshId payload₁.language) ∧
    uploadSubtitles backend maxBytes st p videoId payload₂ freshId
      = (UploadResponse.validationError "attachment"
          (attachmentTooLargeMessage maxBytes), st) ∧
    (∃ s₁ s₂, attachmentTooLargeMessage maxBytes
      = s₁ ++ toString maxBytes ++ s₂) := by
  have hc₁ : LANGUAGE_CHOICES.contains payload₁.language = true :=
    List.elem_eq_true_of_mem hlang₁
  have hc₂ : LANGUAGE_CHOICES.contains payload₂.language = true :=
    List.elem_eq_true_of_mem hlang₂
  have hnlt : ¬(maxBytes < content₁.length) := by omega
  have hlt : maxBytes < content₂.length := by omega
  subst hown
  refine ⟨?_, ?_,
    ⟨"Attachment too large. Maximum file size is ", " bytes", rfl⟩⟩
  · simp [uploadSubtitles, hfind, hc₁, hatt₁, hnlt, hok, hlang₁]
  · simp [uploadSubtitles, hfind, hc₂, hatt₂, hlt, hlang₂]

/-- Witness for C8 at the configured maximum 139 of the tests: 139 bytes are
accepted, 140 bytes are rejected with the message naming 139. -/
theorem subtitles_attachment_size_limit_witness :
    (uploadSubtitles egBackend 139 subsStore 1 "videoid"
        ⟨none, "en", "subs.srt", some (List.replicate 139 0)⟩ "freshid").1
      = UploadResponse.created "freshid" "en" "http://example.com/freshid.vtt" ∧
    uploadSubtitles egBackend 139 subsStore 1 "videoid"
        ⟨none, "en", "subs.srt", some (List.replicate 140 0)⟩ "freshid"
      = (UploadResponse.validationError "attachment"
          (attachmentTooLargeMessage 139), subsStore) :=
  ⟨(subtitles_attachment_size_limit egBackend 139 subsStore 1 "videoid" "freshid"
      ⟨"videoid", 1, "Some title"⟩
      ⟨none, "en", "subs.srt", some (List.replicate 139 0)⟩
      ⟨none, "en", "subs.srt", some (List.replicate 140 0)⟩
      (List.replicate 139 0) (List.replicate 140 0)
      (by decide) rfl (by decide) rfl (by simp) rfl (by decide) rfl
      (by simp)).1,
   (subtitles_attachment_size_limit egBackend 139 subsStore 1 "videoid" "freshid"
      ⟨"videoid", 1, "Some title"⟩
      ⟨none, "en", "subs.srt", some (List.replicate 139 0)⟩
      ⟨none, "en", "subs.srt", some (List.replicate 140 0)⟩
      (List.replicate 139 0) (List.replicate 140 0)
      (by decide) rfl (by decide) rfl (by simp) rfl (by decide) rfl
      (by simp)).2.1⟩

/-- C9: the Entity Store round-trip count of a list request does not depend
on how many videos, subtitles or formats are returned — any two non-empty
pages cost the same (5), an empty page costs 3, and an empty page costs
strictly less than any non-empty one. -/
theorem list_query_count (st₁ st₂ : Store) (p₁ p₂ : Nat)
    (h₁ : visibleVideos st₁ p₁ ≠ []) (h₂ : visibleVideos st₂ p₂ ≠ []) :
    listNumQueries st₁ p₁ = listNumQueries st₂ p₂ ∧
    listNumQueries st₁ p₁ = 5 ∧
    (∀ st p, visibleVideos st p = [] → listNumQueries st p = 3) ∧
    (∀ st p, visibleVideos st p = [] →
      listNumQueries st p < listNumQueries st₁ p₁) := by
  have isEmptyFalse : ∀ (st : Store) (p : Nat), visibleVideos st p ≠ [] →
      (visibleVideos st p).isEmpty = false := by
    intro st p h
    cases hv : visibleVideos st p with
    | nil => exact absurd hv h
    | cons a l => rfl
  have e₁ := isEmptyFalse st₁ p₁ h₁
  have e₂ := isEmptyFalse st₂ p₂ h₂
  refine ⟨by simp [listNumQueries, e₁, e₂], by simp [listNumQueries, e₁], ?_, ?_⟩
  · intro st p h
    simp [listNumQueries, h]
  · intro st p h
    simp [listNumQueries, h, e₁]

/-- Witness for C9: a page with one video (carrying a format row) costs 5
round-trips, and an empty page costs strictly fewer. -/
theorem list_query_count_witness :
    listNumQueries formatStore 1 = 5 ∧
    listNumQueries grantStore 1 < listNumQueries formatStore 1 :=
  ⟨(list_query_count formatStore subsStore 1 1 (by decide) (by decide)).2.1,
   (list_query_count formatStore subsStore 1 1 (by decide) (by decide)).2.2.2
     grantStore 1 (by decide)⟩

end Videofront
